import Mathlib

/-
Verification of the Optional iterator from graph/optional_iterator.go.

The Go code mutates the iterator in place; we model mutation by explicit
state passing: every operation returns the updated iterator alongside its
Go return value.  A sub-iterator is an arbitrary state type `S` together
with a record of operations (`IteratorOps`), one per method of the Go
`Iterator` interface that the Optional iterator consumes.  The diagnostic
sink (`glog.Errorln`) is modelled as a list of emitted messages, and the
`Close` calls issued by `Optimize` as a list of closed sub-states.
-/

namespace Cayley

/-- Opaque graph values (Go `TSVal`, an empty interface).  `nil` models Go's
nil value, returned by `Next` on an un-nextable iterator. -/
inductive TSVal where
  | nil : TSVal
  | val : Nat → TSVal
deriving DecidableEq, Repr

/-- Go `map[string]TSVal`, passed by pointer and mutated by `TagResults`;
modelled as an association list threaded through the calls. -/
abbrev TagMap : Type := List (String × TSVal)

/-- The stats record (`IteratorStats`); Go int64 fields modelled as `Int`. -/
structure IteratorStats where
  CheckCost : Int
  NextCost : Int
  Size : Int
deriving DecidableEq, Repr

/-- The maximum representable value of Go's int64 type, `2^63 - 1`. -/
def int64Max : Int := 2 ^ 63 - 1

/-- The sentinel `int64(1 << 62)` used by `OptionalIterator.GetStats` for
`NextCost`. -/
def nextCostSentinel : Int := 2 ^ 62

/-- The interface of a sub-iterator as consumed by the Optional iterator:
a state type `S` with one pure operation per Go `Iterator` method, mutation
modelled by returning the successor state. -/
structure IteratorOps (S : Type) where
  check : S → TSVal → Bool × S
  nextResult : S → Bool × S
  tagResults : S → TagMap → TagMap × S
  reset : S → S
  close : S → S
  clone : S → S
  optimize : S → S × Bool
  getStats : S → IteratorStats
  next : S → (TSVal × Bool) × S

/-- Modelled from the spec: the shared base-iterator state (`BaseIterator`,
whose definition is not among the sources): the tag set, the last
checked/produced candidate value (`Last`), and the `nextable` flag. -/
structure BaseIterator where
  tags : List String
  Last : TSVal
  nextable : Bool
deriving DecidableEq, Repr

/-- Modelled from the spec: `BaseIteratorInit` (not among the sources)
establishes the fresh base state: empty tag set, no last value yet
(modelled as nil), enumeration supported by default. -/
def BaseIteratorInit : BaseIterator :=
  { tags := [], Last := TSVal.nil, nextable := true }

/-- The Optional iterator: the embedded base state, the owned
sub-constraint iterator, and whether the last check it received was true
or false. -/
structure OptionalIterator (S : Type) where
  base : BaseIterator
  subIt : S
  lastCheck : Bool
deriving DecidableEq, Repr

/-- `NewOptionalIterator`: initialises the base state, marks the node
un-nextable, and installs the sub-iterator.  Go's zero value gives
`lastCheck = false`. -/
def NewOptionalIterator {S : Type} (it : S) : OptionalIterator S :=
  { base := { BaseIteratorInit with nextable := false },
    subIt := it,
    lastCheck := false }

namespace OptionalIterator

variable {S : Type}

/-- `Reset`: resets the sub-iterator and clears `lastCheck`. -/
def Reset (ops : IteratorOps S) (it : OptionalIterator S) : OptionalIterator S :=
  { it with subIt := ops.reset it.subIt, lastCheck := false }

/-- `Close`: closes the sub-iterator. -/
def Close (ops : IteratorOps S) (it : OptionalIterator S) : OptionalIterator S :=
  { it with subIt := ops.close it.subIt }

/-- Modelled from the spec: `CopyTagsFrom` (a `BaseIterator` helper not
among the sources) copies the other node's tag set onto this node. -/
def CopyTagsFrom (it other : OptionalIterator S) : OptionalIterator S :=
  { it with base := { it.base with tags := it.base.tags ++ other.base.tags } }

/-- `Clone`: a new Optional wrapping a clone of the sub-iterator, with this
node's tags copied onto it. -/
def Clone (ops : IteratorOps S) (it : OptionalIterator S) : OptionalIterator S :=
  CopyTagsFrom (NewOptionalIterator (ops.clone it.subIt)) it

/-- `Next`: unsupported; logs "Nexting an un-nextable iterator" to the
diagnostic sink and returns `(nil, false)`.  The second component carries
the emitted log messages and the (untouched) iterator. -/
def Next (it : OptionalIterator S) :
    (TSVal × Bool) × (List String × OptionalIterator S) :=
  ((TSVal.nil, false), (["Nexting an un-nextable iterator"], it))

/-- `NextResult`: delegates to the sub-iterator only when the last check
succeeded; otherwise returns false without consulting the sub-iterator. -/
def NextResult (ops : IteratorOps S) (it : OptionalIterator S) :
    Bool × OptionalIterator S :=
  if it.lastCheck then
    ((ops.nextResult it.subIt).1, { it with subIt := (ops.nextResult it.subIt).2 })
  else
    (false, it)

/-- `Check`: always returns true; stores the sub-iterator's answer in
`lastCheck` and the candidate value in `Last`. -/
def Check (ops : IteratorOps S) (it : OptionalIterator S) (val : TSVal) :
    Bool × OptionalIterator S :=
  (true,
   { it with
     subIt := (ops.check it.subIt val).2,
     lastCheck := (ops.check it.subIt val).1,
     base := { it.base with Last := val } })

/-- `TagResults`: a no-op when the last check failed; otherwise delegates
to the sub-iterator. -/
def TagResults (ops : IteratorOps S) (it : OptionalIterator S) (out : TagMap) :
    TagMap × OptionalIterator S :=
  if it.lastCheck = false then
    (out, it)
  else
    ((ops.tagResults it.subIt out).1,
     { it with subIt := (ops.tagResults it.subIt out).2 })

/-- `Optimize`: optimizes the sub-iterator, closing and replacing it when
its optimizer reports a change; the Optional node itself is returned with
`changed = false`.  The trailing list records the sub-states on which
`Close` was invoked. -/
def Optimize (ops : IteratorOps S) (it : OptionalIterator S) :
    (OptionalIterator S × Bool) × List S :=
  if (ops.optimize it.subIt).2 then
    (({ it with subIt := (ops.optimize it.subIt).1 }, false), [it.subIt])
  else
    ((it, false), [])

/-- `GetStats`: the sub-iterator's `CheckCost` and `Size`, with `NextCost`
fixed to the sentinel `int64(1 << 62)`. -/
def GetStats (ops : IteratorOps S) (it : OptionalIterator S) : IteratorStats :=
  { CheckCost := (ops.getStats it.subIt).CheckCost,
    NextCost := nextCostSentinel,
    Size := (ops.getStats it.subIt).Size }

end OptionalIterator

/-- The clone-independence scenario from the spec: clone the iterator,
call `Check` on the clone, and return the original alongside the checked
clone. -/
def cloneCheckScenario {S : Type} (ops : IteratorOps S) (it : OptionalIterator S)
    (v : TSVal) : OptionalIterator S × OptionalIterator S :=
  (it, (OptionalIterator.Check ops (OptionalIterator.Clone ops it) v).2)

/-- A concrete sub-iterator over state `Nat`, used to evaluate the
definitions on closed inputs. -/
def testOps : IteratorOps Nat where
  check := fun s v =>
    ((match v with
      | TSVal.val n => decide (n % 2 = 0)
      | TSVal.nil => false), s + 1)
  nextResult := fun s => (decide (s < 3), s + 1)
  tagResults := fun s out => (("x", TSVal.val s) :: out, s)
  reset := fun _ => 0
  close := fun s => s
  clone := fun s => s
  optimize := fun s => (2 * s, decide (0 < s))
  getStats := fun s => { CheckCost := Int.ofNat s, NextCost := 7, Size := 5 }
  next := fun s => ((TSVal.nil, false), s)

/-- A concrete Optional iterator whose last check failed. -/
def itFalse : OptionalIterator Nat := NewOptionalIterator 0

/-- A concrete Optional iterator whose last check succeeded. -/
def itTrue : OptionalIterator Nat :=
  { NewOptionalIterator 5 with lastCheck := true }

/-- A concrete Optional iterator whose sub-iterator's optimizer reports a
replacement. -/
def itOptChanged : OptionalIterator Nat := NewOptionalIterator 1

/-- C1: for every value `v` and every sub-iterator, `Check v` returns true
regardless of the sub-iterator's answer, stores the sub-iterator's answer
in `lastCheck`, and records the last value `v`. -/
theorem check_always_true_records_state {S : Type} (ops : IteratorOps S)
    (it : OptionalIterator S) (v : TSVal) :
    (OptionalIterator.Check ops it v).1 = true
  ∧ (OptionalIterator.Check ops it v).2.lastCheck = (ops.check it.subIt v).1
  ∧ (OptionalIterator.Check ops it v).2.base.Last = v :=
  ⟨rfl, rfl, rfl⟩

/-- C2: when `lastCheck` is true, `NextResult` returns exactly the
sub-iterator's `NextResult`; when `lastCheck` is false it returns false
and leaves the whole state, the sub-iterator's included, unchanged. -/
theorem nextResult_gated_by_lastCheck {S : Type} (ops : IteratorOps S)
    (it : OptionalIterator S) :
    (it.lastCheck = true →
       (OptionalIterator.NextResult ops it).1 = (ops.nextResult it.subIt).1
     ∧ (OptionalIterator.NextResult ops it).2.subIt = (ops.nextResult it.subIt).2)
  ∧ (it.lastCheck = false →
       OptionalIterator.NextResult ops it = (false, it)) := by
  constructor <;> intro h <;> simp [OptionalIterator.NextResult, h]

/-- C2 witness: the gating evaluated on concrete iterators with a true and
a false last check. -/
theorem nextResult_gated_by_lastCheck_witness :
    ((OptionalIterator.NextResult testOps itTrue).1
       = (testOps.nextResult itTrue.subIt).1)
  ∧ OptionalIterator.NextResult testOps itFalse = (false, itFalse) :=
  ⟨((nextResult_gated_by_lastCheck testOps itTrue).1 rfl).1,
   (nextResult_gated_by_lastCheck testOps itFalse).2 rfl⟩

/-- C3: when `lastCheck` is false, `TagResults` leaves the mapping and the
whole iterator state unchanged; when `lastCheck` is true it delegates to
the sub-iterator's `TagResults` on the same mapping. -/
theorem tagResults_frame_and_delegate {S : Type} (ops : IteratorOps S)
    (it : OptionalIterator S) (out : TagMap) :
    (it.lastCheck = false →
       OptionalIterator.TagResults ops it out = (out, it))
  ∧ (it.lastCheck = true →
       (OptionalIterator.TagResults ops it out).1
         = (ops.tagResults it.subIt out).1) := by
  constructor <;> intro h <;> simp [OptionalIterator.TagResults, h]

/-- C3 witness: the frame and the delegation evaluated on concrete
iterators and an empty output mapping. -/
theorem tagResults_frame_and_delegate_witness :
    OptionalIterator.TagResults testOps itFalse [] = ([], itFalse)
  ∧ (OptionalIterator.TagResults testOps itTrue []).1
      = (testOps.tagResults itTrue.subIt []).1 :=
  ⟨(tagResults_frame_and_delegate testOps itFalse []).1 rfl,
   (tagResults_frame_and_delegate testOps itTrue []).2 rfl⟩

/-- C4: every `Next` call returns `(nil, false)` and emits exactly one
message on the diagnostic sink; being a total function it never fails. -/
theorem next_unsupported_logs {S : Type} (it : OptionalIterator S) :
    (OptionalIterator.Next it).1 = (TSVal.nil, false)
  ∧ (OptionalIterator.Next it).2.1 = ["Nexting an un-nextable iterator"] :=
  ⟨rfl, rfl⟩

/-- C5: `Reset` resets the sub-iterator and clears `lastCheck`;
`lastCheck` is false right after construction; hence `NextResult` after a
`Reset` or right after construction returns false without touching any
state. -/
theorem reset_clears_lastCheck {S : Type} (ops : IteratorOps S)
    (it : OptionalIterator S) (s : S) :
    (OptionalIterator.Reset ops it).lastCheck = false
  ∧ (OptionalIterator.Reset ops it).subIt = ops.reset it.subIt
  ∧ (NewOptionalIterator s).lastCheck = false
  ∧ OptionalIterator.NextResult ops (OptionalIterator.Reset ops it)
      = (false, OptionalIterator.Reset ops it)
  ∧ OptionalIterator.NextResult ops (NewOptionalIterator s)
      = (false, NewOptionalIterator s) := by
  refine ⟨rfl, rfl, rfl, ?_, ?_⟩ <;>
    simp [OptionalIterator.NextResult, OptionalIterator.Reset, NewOptionalIterator]

/-- C6: `Clone` yields a new Optional whose `lastCheck` starts false,
whose sub-iterator is a clone of the original's, and whose tag set is a
copy of the original's; checking the clone leaves the original's
`lastCheck` untouched (state passing shares nothing mutable). -/
theorem clone_independent_copy {S : Type} (ops : IteratorOps S)
    (it : OptionalIterator S) (v : TSVal) :
    (OptionalIterator.Clone ops it).lastCheck = false
  ∧ (OptionalIterator.Clone ops it).subIt = ops.clone it.subIt
  ∧ (OptionalIterator.Clone ops it).base.tags = it.base.tags
  ∧ (cloneCheckScenario ops it v).1.lastCheck = it.lastCheck := by
  refine ⟨rfl, rfl, ?_, rfl⟩
  simp [OptionalIterator.Clone, OptionalIterator.CopyTagsFrom, NewOptionalIterator,
    BaseIteratorInit]

/-- C7: `Optimize` always returns the Optional node itself with
`changed = false`; the sub-iterator is closed and replaced exactly when
its own optimizer reports a change, and kept in place otherwise. -/
theorem optimize_never_changes_self {S : Type} (ops : IteratorOps S)
    (it : OptionalIterator S) :
    (OptionalIterator.Optimize ops it).1.2 = false
  ∧ ((ops.optimize it.subIt).2 = true →
       (OptionalIterator.Optimize ops it).1.1
         = { it with subIt := (ops.optimize it.subIt).1 }
     ∧ (OptionalIterator.Optimize ops it).2 = [it.subIt])
  ∧ ((ops.optimize it.subIt).2 = false →
       (OptionalIterator.Optimize ops it).1.1 = it
     ∧ (OptionalIterator.Optimize ops it).2 = []) := by
  refine ⟨?_, ?_, ?_⟩
  · by_cases h : (ops.optimize it.subIt).2 <;> simp [OptionalIterator.Optimize, h]
  · intro h; simp [OptionalIterator.Optimize, h]
  · intro h; simp [OptionalIterator.Optimize, h]

/-- C7 witness: both the replaced and the unchanged sub-iterator case on
concrete iterators, along with `changed = false` for the node itself. -/
theorem optimize_never_changes_self_witness :
    ((OptionalIterator.Optimize testOps itOptChanged).1.1
       = { itOptChanged with subIt := (testOps.optimize itOptChanged.subIt).1 }
     ∧ (OptionalIterator.Optimize testOps itOptChanged).2 = [itOptChanged.subIt])
  ∧ ((OptionalIterator.Optimize testOps itFalse).1.1 = itFalse
     ∧ (OptionalIterator.Optimize testOps itFalse).2 = [])
  ∧ (OptionalIterator.Optimize testOps itFalse).1.2 = false :=
  ⟨(optimize_never_changes_self testOps itOptChanged).2.1 (by decide),
   (optimize_never_changes_self testOps itFalse).2.2 (by decide),
   (optimize_never_changes_self testOps itFalse).1⟩

/-- C8 counterexample: the code's `NextCost` sentinel is `int64(1 << 62)`,
which is not the maximum representable int64 value, refuting the claim at
a concrete iterator. -/
theorem getStats_nextCost_not_int64Max :
    (OptionalIterator.GetStats testOps itFalse).NextCost ≠ int64Max := by
  simp [OptionalIterator.GetStats, nextCostSentinel, int64Max]

/-- C8 amended: `GetStats` forwards the sub-iterator's `CheckCost` and
`Size`, and `NextCost` is the fixed sentinel `2^62`, independent of the
sub-iterator's reported `NextCost` (large, but not the int64 maximum). -/
theorem getStats_spec {S : Type} (ops : IteratorOps S)
    (it : OptionalIterator S) :
    (OptionalIterator.GetStats ops it).CheckCost = (ops.getStats it.subIt).CheckCost
  ∧ (OptionalIterator.GetStats ops it).Size = (ops.getStats it.subIt).Size
  ∧ (OptionalIterator.GetStats ops it).NextCost = 2 ^ 62 :=
  ⟨rfl, rfl, rfl⟩

/-- C9: `TagResults` never writes the Optional's own tags or last value:
the resulting mapping is either the input or exactly what the
sub-iterator writes, and it does not depend on the Optional's own tag set
or `Last` field. -/
theorem tagResults_ignores_own_tags {S : Type} (ops : IteratorOps S)
    (it : OptionalIterator S) (out : TagMap) (ts : List String) (lv : TSVal) :
    (OptionalIterator.TagResults ops it out).1
      = (if it.lastCheck then (ops.tagResults it.subIt out).1 else out)
  ∧ (OptionalIterator.TagResults ops
       { it with base := { it.base with tags := ts, Last := lv } } out).1
      = (OptionalIterator.TagResults ops it out).1 := by
  by_cases h : it.lastCheck <;> simp [OptionalIterator.TagResults, h]

/-- C10: `Next` leaves the iterator, its sub-iterator's state included,
exactly as it was. -/
theorem next_leaves_state_unchanged {S : Type} (it : OptionalIterator S) :
    (OptionalIterator.Next it).2.2 = it :=
  rfl

end Cayley
